import Mathlib

/-!
Verification of the ETL ingestion pipeline in `src/etl/etl.py`.

The pipeline reads zip archives of JSON documents holding vehicle GPS
records, validates and normalizes each record, and bulk-inserts the
normalized batch of one entry into a PostgreSQL/PostGIS table, committing
per entry and rolling back on entry-level failure.

This file shallowly embeds the pipeline: JSON values and records become
inductive data, the per-record validation in `process_file` becomes a
computable function into `Except` (an `Except.error` models a Python
exception caught and logged by the per-item handler), the bulk insert
becomes an explicit fold over a table state carrying the constraints the
DDL in `create_table_from_zip` actually declares, and the walker
`run_etl` becomes a function of an environment describing the store, the
data directory and the archives.
-/

namespace Etl

/-- A JSON scalar value as it appears in one record of a source entry.
The source data carries strings and integer-valued numbers; `null` covers
JSON null. -/
inductive JsonValue where
  | str (s : String)
  | num (n : Int)
  | null
deriving DecidableEq

/-- A raw record: the key/value document for one item of the JSON array of
an entry (a Python dict with unique keys). -/
def RawItem : Type := List (String × JsonValue)

instance : DecidableEq RawItem := by
  unfold RawItem
  infer_instance

/-- Lookup of a key, modelling both `item.get(k)` (absent gives `none`,
i.e. Python `None`) and `item[k]` (absent raises `KeyError`, handled by
the caller of this function). -/
def getField (item : RawItem) (k : String) : Option JsonValue :=
  match item with
  | [] => none
  | (k2, v) :: rest => if k2 = k then some v else getField rest k

/-- The fixed allow-list of line identifiers, `VALID_LINES` in the source
(lines 22-27). -/
def VALID_LINES : List String :=
  ["483", "864", "639", "3", "309", "774", "629", "371", "397", "100",
   "838", "315", "624", "388", "918", "665", "328", "497", "878", "355",
   "138", "606", "457", "550", "803", "917", "638", "2336", "399", "298",
   "867", "553", "565", "422", "756", "292", "554", "634", "232", "415",
   "2803", "324", "852", "557", "759", "343", "779", "905", "108"]

/-- Whether a character is an ASCII decimal digit. -/
def isDigitChar (c : Char) : Bool :=
  decide ('0' ≤ c) && decide (c ≤ '9')

/-- Numeric value of a digit character. -/
def digitVal (c : Char) : ℕ := c.toNat - 48

/-- Value of a digit string read in base 10. -/
def digitsToNat (cs : List Char) : ℕ :=
  cs.foldl (fun a c => 10 * a + digitVal c) 0

/-- Whether every character of the list is a digit. -/
def allDigits (cs : List Char) : Bool := cs.all isDigitChar

/-- Python `float(...)` on an unsigned decimal literal: digits, optionally
followed by a point and digits, with at least one digit overall (`"23"`,
`"23.5"`, `"23."` and `".5"` parse; `""`, `"."` and anything containing a
non-digit other than one point do not). The result is the exact decimal
value as a rational. This models the fragment of `float` exercised by the
coordinate strings of the data; forms such as exponents or infinities
never reach it. -/
def pyFloatUnsigned (cs : List Char) : Option ℚ :=
  let intPart := cs.takeWhile isDigitChar
  let rest := cs.dropWhile isDigitChar
  match rest with
  | [] => if intPart.isEmpty then none else some (mkRat (digitsToNat intPart) 1)
  | '.' :: frac =>
      if allDigits frac && !(intPart.isEmpty && frac.isEmpty) then
        some (mkRat (digitsToNat intPart * 10 ^ frac.length + digitsToNat frac)
                (10 ^ frac.length))
      else none
  | _ => none

/-- Python `float(...)` on an optionally signed decimal literal. -/
def pyFloat (cs : List Char) : Option ℚ :=
  match cs with
  | '-' :: rest => (pyFloatUnsigned rest).map (fun q => -q)
  | '+' :: rest => pyFloatUnsigned rest
  | _ => pyFloatUnsigned cs

/-- `float(s)` on a string. -/
def floatOfStr (s : String) : Option ℚ := pyFloat s.data

/-- `s.replace(",", ".")`: the separator substitution applied to the
coordinate strings (source lines 79-80). The pattern is the single
character `,`, so the substitution is character-wise. -/
def commaToDot (s : String) : String :=
  ⟨s.data.map (fun c => if c = ',' then '.' else c)⟩

/-- `float(s.replace(",", "."))`: coordinate normalization. -/
def normalizeCoord (s : String) : Option ℚ :=
  floatOfStr (commaToDot s)

/-- The value bound to `line` by `item.get("linha")` when it passes the
allow-list test `line not in VALID_LINES`: membership of a non-string
value (or of Python `None`, for an absent key) in a set of strings is
false, so only a string member of the allow-list passes. -/
def lineStrOf (item : RawItem) : Option String :=
  match getField item "linha" with
  | some (JsonValue.str s) => if s ∈ VALID_LINES then some s else none
  | _ => none

/-- `item[k]` where the caller's `try` catches `KeyError` as an
entry-rejection. -/
def requireField (item : RawItem) (k : String) : Except String JsonValue :=
  match getField item k with
  | some v => Except.ok v
  | none => Except.error ("KeyError: " ++ k)

/-- `item[k].replace(",", ".")`'s prerequisite: the field exists
(`KeyError` otherwise) and is a string (`AttributeError` from `.replace`
otherwise). -/
def requireStrField (item : RawItem) (k : String) : Except String String :=
  match getField item k with
  | some (JsonValue.str s) => Except.ok s
  | some _ => Except.error ("AttributeError: no replace on field " ++ k)
  | none => Except.error ("KeyError: " ++ k)

/-- `float(item[k].replace(",", "."))`: fetch, substitute the separator,
parse; a parse failure is Python's `ValueError`. -/
def parseCoord (item : RawItem) (k : String) : Except String ℚ :=
  match requireStrField item k with
  | Except.error m => Except.error m
  | Except.ok s =>
      match normalizeCoord s with
      | some q => Except.ok q
      | none => Except.error ("ValueError: could not convert string to float: " ++ s)

/-- One row appended to `rows` by the loop body of `process_file`: the
10-tuple `(item["ordem"], line, item["datahora"], item["datahoraenvio"],
item["datahoraservidor"], item["velocidade"], lon, lat, lon, lat)` (source
lines 83-93). The last two components are the arguments later fed to the
point-construction expression of the insert template. -/
structure Row where
  ordem : JsonValue
  linha : String
  datahora : JsonValue
  datahoraenvio : JsonValue
  datahoraservidor : JsonValue
  velocidade : JsonValue
  longitude : ℚ
  latitude : ℚ
  geomLon : ℚ
  geomLat : ℚ
deriving DecidableEq

/-- The body of the `for item in json_data` loop of `process_file`
(source lines 71-95) for one item: `Except.ok none` is the silent
`continue` on an invalid line, `Except.error m` is an exception caught
and logged by the per-item `except` (the record is dropped, the entry
continues), `Except.ok (some r)` appends `r` to the batch. Fields are
read in source order: line check, latitude, longitude, then the tuple
fields. -/
def process_item (item : RawItem) : Except String (Option Row) :=
  match lineStrOf item with
  | none => Except.ok none
  | some line =>
    match parseCoord item "latitude" with
    | Except.error m => Except.error m
    | Except.ok lat =>
      match parseCoord item "longitude" with
      | Except.error m => Except.error m
      | Except.ok lon =>
        match requireField item "ordem" with
        | Except.error m => Except.error m
        | Except.ok ordem =>
          match requireField item "datahora" with
          | Except.error m => Except.error m
          | Except.ok datahora =>
            match requireField item "datahoraenvio" with
            | Except.error m => Except.error m
            | Except.ok datahoraenvio =>
              match requireField item "datahoraservidor" with
              | Except.error m => Except.error m
              | Except.ok datahoraservidor =>
                match requireField item "velocidade" with
                | Except.error m => Except.error m
                | Except.ok velocidade =>
                  Except.ok (some
                    ⟨ordem, line, datahora, datahoraenvio, datahoraservidor,
                     velocidade, lon, lat, lon, lat⟩)

/-- The batch accumulated by `process_file`: the rows of the items that
fully normalize, in encounter order (skips and logged rejections drop
out). -/
def process_file (jsonData : List RawItem) : List Row :=
  jsonData.filterMap (fun item =>
    match process_item item with
    | Except.ok (some r) => some r
    | _ => none)

/-- A point as built by PostGIS `ST_MakePoint(x, y)`; the insert template
calls it as `ST_MakePoint(lon, lat)`, longitude first. -/
structure GeoPoint where
  x : ℚ
  y : ℚ
deriving DecidableEq

/-- A geometry value with its spatial reference identifier, as produced
by `ST_SetSRID(p, srid)`. -/
structure Geometry where
  x : ℚ
  y : ℚ
  srid : ℕ
deriving DecidableEq

/-- `ST_MakePoint(x, y)`. -/
def makePoint (x y : ℚ) : GeoPoint := ⟨x, y⟩

/-- `ST_SetSRID(p, srid)`. -/
def setSRID (p : GeoPoint) (srid : ℕ) : Geometry := ⟨p.x, p.y, srid⟩

/-- A committed or pending row of a `gps_*` table, per the DDL of
`create_table_from_zip` (source lines 41-54): a `SERIAL PRIMARY KEY`
synthetic identity, the scalar columns (typed loosely, since the insert
passes the Python values through unchanged), and the geometry column. -/
structure TableRow where
  id : ℕ
  ordem : JsonValue
  linha : String
  datahora : JsonValue
  datahoraenvio : JsonValue
  datahoraservidor : JsonValue
  velocidade : JsonValue
  longitude : ℚ
  latitude : ℚ
  geom : Geometry
deriving DecidableEq

/-- The insert template of `process_file` (source line 104) applied to
one batch row at the identity `id` drawn from the serial sequence:
the first eight tuple components fill the scalar columns and the last two
feed `ST_SetSRID(ST_MakePoint(%s, %s), 4326)`. -/
def mkTableRow (id : ℕ) (r : Row) : TableRow :=
  ⟨id, r.ordem, r.linha, r.datahora, r.datahoraenvio, r.datahoraservidor,
   r.velocidade, r.longitude, r.latitude,
   setSRID (makePoint r.geomLon r.geomLat) 4326⟩

/-- The state of one `gps_*` table: its rows and the next value of the
`id` serial sequence. The DDL declares exactly one unique constraint, the
primary key on `id`; there is no unique constraint over the data
columns. -/
structure Table where
  nextId : ℕ
  rows : List TableRow
deriving DecidableEq

/-- A freshly created table: no rows, serial sequence at 1. -/
def emptyTable : Table := ⟨1, []⟩

/-- Whether inserting a row with identity `id` conflicts with a unique
constraint of the table. The only unique constraint the DDL declares is
the primary key on `id`, so this is the only conflict
`ON CONFLICT DO NOTHING` can ever suppress. -/
def uniqueConflict (t : Table) (id : ℕ) : Bool :=
  t.rows.any (fun tr => tr.id = id)

/-- Insert one batch row under `ON CONFLICT DO NOTHING` (PostgreSQL: the
candidate row is silently skipped exactly when it violates a unique or
exclusion constraint of the table; the serial `nextval` is consumed
either way). -/
def insertOne (t : Table) (r : Row) : Table :=
  if uniqueConflict t t.nextId then ⟨t.nextId + 1, t.rows⟩
  else ⟨t.nextId + 1, t.rows ++ [mkTableRow t.nextId r]⟩

/-- `execute_values(cursor, "INSERT INTO ... VALUES %s ON CONFLICT DO
NOTHING", rows, template)`: the multi-row insert of `process_file`
(source lines 97-104), row by row in order. With an empty batch the
source skips the statement; the fold is then the identity. -/
def execute_values (t : Table) (rows : List Row) : Table :=
  rows.foldl insertOne t

/-- `SELECT count(*)`: the number of rows of the table. -/
def rowCount (t : Table) : ℕ := t.rows.length

/-- The session's view of the target table: the last committed state and
the pending state the open transaction sees. -/
structure DBState where
  committed : Table
  pending : Table
deriving DecidableEq

/-- `conn.commit()`: the pending work becomes committed. -/
def commitDB (db : DBState) : DBState := ⟨db.pending, db.pending⟩

/-- `conn.rollback()`: the pending work is discarded. -/
def rollbackDB (db : DBState) : DBState := ⟨db.committed, db.committed⟩

/-- What happens to one qualifying entry inside the per-entry `try` of
`run_etl` (source lines 133-140): the JSON document fails to parse
(`json.load` raises), or the bulk load / commit fails on the store side
(`execute_values` or `conn.commit` raises), or the document parses into
a list of raw items and the entry is processed. -/
inductive EntryOutcome where
  | parseError
  | loadError (items : List RawItem)
  | ok (items : List RawItem)
deriving DecidableEq

/-- Whether the outcome is one of the failure cases the per-entry
`except` catches. -/
def isEntryFailure : EntryOutcome → Bool
  | EntryOutcome.parseError => true
  | EntryOutcome.loadError _ => true
  | EntryOutcome.ok _ => false

/-- The per-entry `try`/`except` of `run_etl` (source lines 133-140):
on success the batch of the parsed items is inserted and the transaction
committed; on any error the error is logged and the transaction rolled
back, discarding whatever the failed statement had pending, and the
walker continues. -/
def process_entry (db : DBState) : EntryOutcome → DBState
  | EntryOutcome.parseError => rollbackDB db
  | EntryOutcome.loadError _ => rollbackDB db
  | EntryOutcome.ok items =>
      commitDB ⟨db.committed, execute_values db.pending (process_file items)⟩

/-- The walk over the qualifying entries of one archive, in order. -/
def run_entries (db : DBState) (es : List EntryOutcome) : DBState :=
  es.foldl process_entry db

/-- The hour alternation `(0[6-9]|1[0-9]|2[0-3])` of `filename_pattern`
(source line 116). -/
def hourOk (h1 h2 : Char) : Bool :=
  (h1 = '0' && decide ('6' ≤ h2) && decide (h2 ≤ '9')) ||
  (h1 = '1' && isDigitChar h2) ||
  (h1 = '2' && decide ('0' ≤ h2) && decide (h2 ≤ '3'))

/-- `filename_pattern.match(base_filename)` with the source regex
`2024-\d{2}-\d{2}_(0[6-9]|1[0-9]|2[0-3])\.json$` (source line 116):
`re.match` anchors at the start and the trailing dollar at the end, so
the whole name must be literal `2024-`, two digits, `-`, two digits,
`_`, an in-window hour, `.json`. -/
def filename_pattern_match (s : String) : Bool :=
  match s.data with
  | '2' :: '0' :: '2' :: '4' :: '-' :: m1 :: m2 :: '-' :: d1 :: d2 :: '_'
      :: h1 :: h2 :: '.' :: 'j' :: 's' :: 'o' :: 'n' :: [] =>
      isDigitChar m1 && isDigitChar m2 && isDigitChar d1 && isDigitChar d2 &&
      hourOk h1 h2
  | _ => false

/-- Follows the spec's words: the generic date-stamped pattern
`YYYY-MM-DD_HH.json` with any four-digit year and HH in the 06-23
window, stated for comparison with the source's `filename_pattern`,
which fixes the year. -/
def specPatternMatch (s : String) : Bool :=
  match s.data with
  | y1 :: y2 :: y3 :: y4 :: '-' :: m1 :: m2 :: '-' :: d1 :: d2 :: '_'
      :: h1 :: h2 :: '.' :: 'j' :: 's' :: 'o' :: 'n' :: [] =>
      isDigitChar y1 && isDigitChar y2 && isDigitChar y3 && isDigitChar y4 &&
      isDigitChar m1 && isDigitChar m2 && isDigitChar d1 && isDigitChar d2 &&
      hourOk h1 h2
  | _ => false

/-- `os.path.basename(filename)`: the part after the last slash. -/
def basename (s : String) : String :=
  ⟨(s.data.reverse.takeWhile (fun c => c ≠ '/')).reverse⟩

/-- The entry filter of `run_etl` (source lines 127-131): an inner entry
is processed exactly when the pattern matches its base name; otherwise it
is skipped with a log line, not an error. -/
def shouldProcessEntry (f : String) : Bool :=
  filename_pattern_match (basename f)

/-- The names of the inner entries of an archive that the walker
processes, in order. -/
def processedEntries (names : List String) : List String :=
  names.filter shouldProcessEntry

/-- One inner entry of an archive as the walker sees it: its name and
what processing it would do. -/
structure EntryDesc where
  name : String
  outcome : EntryOutcome
deriving DecidableEq

/-- One file of the data directory as the walker sees it: its name,
whether opening it as a zip archive raises (a corrupt or truncated
archive makes `zipfile.ZipFile` raise `BadZipFile`, which no handler in
`run_etl` catches), and its inner entries. -/
structure ArchiveDesc where
  name : String
  corrupt : Bool
  entries : List EntryDesc
deriving DecidableEq

/-- `zip_name.endswith(".zip")` (source line 120). -/
def nameEndsWithZip (s : String) : Bool :=
  match s.data.reverse with
  | 'p' :: 'i' :: 'z' :: '.' :: _ => true
  | _ => false

/-- Whether a directory entry makes the walker raise: it is only opened
as an archive when its name ends in `.zip` (otherwise it is skipped with
a log), and opening raises when it is corrupt. -/
def archiveFatal (a : ArchiveDesc) : Bool :=
  nameEndsWithZip a.name && a.corrupt

/-- Whether the walk over the data directory completes without an
uncaught exception. -/
def walkOk (archives : List ArchiveDesc) : Bool :=
  archives.all (fun a => !archiveFatal a)

/-- The environment of one run: whether the store accepts the n-th
connection attempt (attempt numbering from 0), whether the configured
data directory exists, and the directory's files. -/
structure Env where
  store : ℕ → Bool
  dirExists : Bool
  archives : List ArchiveDesc

/-- `connect_to_database` (source lines 29-34): a single
`psycopg2.connect(**DB_PARAMS)` call inside a `try` whose `except`
catches every exception and raises a fatal initialization error. The
oracle `store` says which attempts the store would accept; the source
makes exactly one call, attempt 0. -/
def connect_to_database (store : ℕ → Bool) : Except String Unit :=
  if store 0 then Except.ok ()
  else Except.error
    "Failed to connect to the database. Please check your connection parameters."

/-- The observable outcome of one run of the process: its exit status,
whether a session to the store was opened, and whether the program
closed it. -/
structure RunResult where
  exitCode : ℕ
  sessionOpened : Bool
  sessionClosed : Bool
deriving DecidableEq

/-- `run_etl` (source lines 106-147) at the run level. The connect call
raising propagates to the top level, so the process exits non-zero with
no session. A missing data directory prints a diagnostic and `return`s
from `run_etl`, so the process exits zero with the session left open
(the `cur.close(); conn.close()` lines at the end of the function are
skipped). An uncaught exception while walking the archives (a corrupt
zip) propagates, exiting non-zero, again skipping the close calls. Only
on a completed walk are `cur.close()` and `conn.close()` executed and
the process exits zero. -/
def run_etl (env : Env) : RunResult :=
  match connect_to_database env.store with
  | Except.error _ => ⟨1, false, false⟩
  | Except.ok _ =>
      if env.dirExists then
        if walkOk env.archives then ⟨0, true, true⟩
        else ⟨1, true, false⟩
      else ⟨0, true, false⟩

/-- Follows the spec's words: a value is coercible to an integer column
exactly when it is a number, or a string that parses as an optionally
signed decimal integer. Stated to express the claim's notion of field
coercibility, which the source never checks. -/
def specCoercibleToInt : JsonValue → Bool
  | JsonValue.num _ => true
  | JsonValue.str s =>
      match s.data with
      | '-' :: rest => !rest.isEmpty && allDigits rest
      | '+' :: rest => !rest.isEmpty && allDigits rest
      | cs => !cs.isEmpty && allDigits cs
  | JsonValue.null => false

/-- The five fields read raw into the batch tuple after the coordinate
checks (source lines 84-89). -/
def requiredKeys : List String :=
  ["ordem", "datahora", "datahoraenvio", "datahoraservidor", "velocidade"]

/-- A raw record that fully normalizes: line `483` is in the allow-list,
the coordinates carry the comma separator, all tuple fields are
present. -/
def goodItem : RawItem :=
  [("ordem", JsonValue.str "A12345"), ("linha", JsonValue.str "483"),
   ("datahora", JsonValue.num 1700000000000),
   ("datahoraenvio", JsonValue.num 1700000000001),
   ("datahoraservidor", JsonValue.num 1700000000002),
   ("velocidade", JsonValue.num 30),
   ("latitude", JsonValue.str "-22,90"), ("longitude", JsonValue.str "-43,20")]

/-- The batch row `process_file` builds for `goodItem`. -/
def goodRow : Row :=
  ⟨JsonValue.str "A12345", "483", JsonValue.num 1700000000000,
   JsonValue.num 1700000000001, JsonValue.num 1700000000002,
   JsonValue.num 30, mkRat (-432) 10, mkRat (-229) 10,
   mkRat (-432) 10, mkRat (-229) 10⟩

/-- A raw record whose line identifier is not in the allow-list. -/
def itemBadLine : RawItem :=
  [("ordem", JsonValue.str "B1"), ("linha", JsonValue.str "999"),
   ("datahora", JsonValue.num 1), ("datahoraenvio", JsonValue.num 2),
   ("datahoraservidor", JsonValue.num 3), ("velocidade", JsonValue.num 4),
   ("latitude", JsonValue.str "-22,90"), ("longitude", JsonValue.str "-43,20")]

/-- A raw record of a valid line whose latitude has neither a valid comma
nor a valid period decimal representation. -/
def itemBadLat : RawItem :=
  [("ordem", JsonValue.str "C1"), ("linha", JsonValue.str "483"),
   ("datahora", JsonValue.num 1), ("datahoraenvio", JsonValue.num 2),
   ("datahoraservidor", JsonValue.num 3), ("velocidade", JsonValue.num 4),
   ("latitude", JsonValue.str "abc"), ("longitude", JsonValue.str "-43,20")]

/-- A raw record of a valid line with valid coordinates but no `ordem`
field. -/
def itemMissingOrdem : RawItem :=
  [("linha", JsonValue.str "483"),
   ("datahora", JsonValue.num 1), ("datahoraenvio", JsonValue.num 2),
   ("datahoraservidor", JsonValue.num 3), ("velocidade", JsonValue.num 4),
   ("latitude", JsonValue.str "-22,90"), ("longitude", JsonValue.str "-43,20")]

/-- A raw record of a valid line with valid coordinates whose speed field
is present but not coercible to the INTEGER column. -/
def itemBadVel : RawItem :=
  [("ordem", JsonValue.str "D1"), ("linha", JsonValue.str "483"),
   ("datahora", JsonValue.num 1), ("datahoraenvio", JsonValue.num 2),
   ("datahoraservidor", JsonValue.num 3),
   ("velocidade", JsonValue.str "notanumber"),
   ("latitude", JsonValue.str "-22,90"), ("longitude", JsonValue.str "-43,20")]

/-- The batch row `process_file` builds for `itemBadVel`: the
non-coercible speed string passes straight through. -/
def rowBadVel : Row :=
  ⟨JsonValue.str "D1", "483", JsonValue.num 1, JsonValue.num 2,
   JsonValue.num 3, JsonValue.str "notanumber",
   mkRat (-432) 10, mkRat (-229) 10, mkRat (-432) 10, mkRat (-229) 10⟩

/-- An empty session state over a freshly created table. -/
def db0 : DBState := ⟨emptyTable, emptyTable⟩

/-- A run environment whose store accepts every connection attempt but
whose data directory is missing. -/
def envDirMissing : Env := ⟨fun _ => true, false, []⟩

/-- A run environment with a reachable store, an existing directory and
one corrupt zip archive. -/
def envCorruptZip : Env := ⟨fun _ => true, true, [⟨"a.zip", true, []⟩]⟩

/-- A run environment whose store refuses connection attempts 0, 1 and 2
and accepts from attempt 3 (the 4th attempt) on. -/
def envLateStore : Env := ⟨fun n => decide (3 ≤ n), true, []⟩

theorem requireField_ok {item : RawItem} {k : String} {v : JsonValue}
    (h : requireField item k = Except.ok v) : getField item k = some v := by
  unfold requireField at h
  split at h
  next w hw =>
    injection h with h
    subst h
    exact hw
  next hw => exact Except.noConfusion h

theorem lineStrOf_mem {item : RawItem} {s : String}
    (h : lineStrOf item = some s) : s ∈ VALID_LINES := by
  unfold lineStrOf at h
  split at h
  next t ht =>
    split at h
    next hmem =>
      injection h with h
      subst h
      exact hmem
    next => exact Option.noConfusion h
  next => exact Option.noConfusion h

/-- Everything `process_item` guarantees about a row it accepts: the
line came from the allow-list check, the geometry arguments are the very
longitude/latitude scalars, and each tuple field was read from the
record. -/
theorem process_item_ok_shape (item : RawItem) (r : Row)
    (h : process_item item = Except.ok (some r)) :
    lineStrOf item = some r.linha ∧
    r.geomLon = r.longitude ∧ r.geomLat = r.latitude ∧
    getField item "ordem" = some r.ordem ∧
    getField item "datahora" = some r.datahora ∧
    getField item "datahoraenvio" = some r.datahoraenvio ∧
    getField item "datahoraservidor" = some r.datahoraservidor ∧
    getField item "velocidade" = some r.velocidade := by
  unfold process_item at h
  split at h
  · exact Option.noConfusion (Except.ok.inj h)
  next line hline =>
    split at h
    · exact Except.noConfusion h
    next lat hlat =>
      split at h
      · exact Except.noConfusion h
      next lon hlon =>
        split at h
        · exact Except.noConfusion h
        next ordem hordem =>
          split at h
          · exact Except.noConfusion h
          next datahora hdatahora =>
            split at h
            · exact Except.noConfusion h
            next datahoraenvio hdatahoraenvio =>
              split at h
              · exact Except.noConfusion h
              next datahoraservidor hdatahoraservidor =>
                split at h
                · exact Except.noConfusion h
                next velocidade hvelocidade =>
                  injection h with h
                  injection h with h
                  subst h
                  exact ⟨hline, rfl, rfl, requireField_ok hordem,
                    requireField_ok hdatahora, requireField_ok hdatahoraenvio,
                    requireField_ok hdatahoraservidor, requireField_ok hvelocidade⟩

/-- The only way `process_item` yields a silent skip is the line check. -/
theorem process_item_ok_none (item : RawItem)
    (h : process_item item = Except.ok none) : lineStrOf item = none := by
  unfold process_item at h
  split at h
  next hline => exact hline
  next line hline =>
    split at h
    · exact Except.noConfusion h
    next lat hlat =>
      split at h
      · exact Except.noConfusion h
      next lon hlon =>
        split at h
        · exact Except.noConfusion h
        next ordem hordem =>
          split at h
          · exact Except.noConfusion h
          next datahora hdatahora =>
            split at h
            · exact Except.noConfusion h
            next datahoraenvio hdatahoraenvio =>
              split at h
              · exact Except.noConfusion h
              next datahoraservidor hdatahoraservidor =>
                split at h
                · exact Except.noConfusion h
                next velocidade hvelocidade =>
                  exact Option.noConfusion (Except.ok.inj h)

/-- Rows of the batch come from items the validator accepted. -/
theorem mem_process_file {items : List RawItem} {r : Row}
    (h : r ∈ process_file items) :
    ∃ item, item ∈ items ∧ process_item item = Except.ok (some r) := by
  unfold process_file at h
  rcases List.mem_filterMap.mp h with ⟨item, hmem, hf⟩
  refine ⟨item, hmem, ?_⟩
  rcases hpi : process_item item with m | o
  · rw [hpi] at hf
    simp at hf
  · rcases o with _ | r2
    · rw [hpi] at hf
      simp at hf
    · rw [hpi] at hf
      simp only [Option.some.injEq] at hf
      rw [hf]

theorem mem_insertOne {t : Table} {r : Row} {tr : TableRow}
    (h : tr ∈ (insertOne t r).rows) :
    tr ∈ t.rows ∨ tr = mkTableRow t.nextId r := by
  unfold insertOne at h
  split at h
  · exact Or.inl h
  · simp only [List.mem_append, List.mem_singleton] at h
    exact h

/-- A row of the table after a bulk insert either was already there or is
the image of one batch row under the insert template. -/
theorem mem_execute_values {rs : List Row} {t : Table} {tr : TableRow}
    (h : tr ∈ (execute_values t rs).rows) :
    tr ∈ t.rows ∨ ∃ i r, r ∈ rs ∧ tr = mkTableRow i r := by
  induction rs generalizing t with
  | nil => exact Or.inl h
  | cons r rs ih =>
    have h2 : tr ∈ (execute_values (insertOne t r) rs).rows := h
    rcases ih h2 with h3 | ⟨i, r2, hmem, heq⟩
    · rcases mem_insertOne h3 with h4 | h4
      · exact Or.inl h4
      · exact Or.inr ⟨t.nextId, r, List.mem_cons_self r rs, h4⟩
    · exact Or.inr ⟨i, r2, List.mem_cons_of_mem r hmem, heq⟩

/-- After processing an entry the session is at a transaction boundary:
pending and committed agree. -/
theorem process_entry_boundary (db : DBState) (e : EntryOutcome) :
    (process_entry db e).pending = (process_entry db e).committed := by
  cases e <;> simp [process_entry, commitDB, rollbackDB]

/-- At a transaction boundary, a failing entry leaves the session state
unchanged: the rollback discards exactly the failed entry's pending
work. -/
theorem process_entry_fail (db : DBState) (e : EntryOutcome)
    (hinv : db.pending = db.committed) (hf : isEntryFailure e = true) :
    process_entry db e = db := by
  cases e with
  | parseError =>
      cases db with
      | mk c p =>
          simp only [process_entry, rollbackDB]
          simp only [DBState.pending, DBState.committed] at hinv
          rw [hinv]
  | loadError items =>
      cases db with
      | mk c p =>
          simp only [process_entry, rollbackDB]
          simp only [DBState.pending, DBState.committed] at hinv
          rw [hinv]
  | ok items => simp [isEntryFailure] at hf

/-- Claim C1, counterexample: a store that refuses the first three
connection attempts and accepts from the fourth on still makes
`connect_to_database` raise its fatal initialization error, and the run
exits non-zero — the claimed retry loop (10 attempts, 3-second delay)
does not exist; the source makes a single attempt. -/
theorem connect_retry_counterexample :
    connect_to_database (fun n => decide (3 ≤ n)) =
      Except.error
        "Failed to connect to the database. Please check your connection parameters." ∧
    (run_etl envLateStore).exitCode = 1 :=
  ⟨rfl, rfl⟩

/-- Claim C1 (amended): `connect_to_database` makes exactly one
connection attempt — its outcome depends only on whether the store
accepts attempt 0 — and it succeeds precisely when that first attempt is
accepted; any failure immediately raises the fatal initialization
error. -/
theorem connect_single_attempt (store1 store2 : ℕ → Bool)
    (h : store1 0 = store2 0) :
    connect_to_database store1 = connect_to_database store2 ∧
    (connect_to_database store1 = Except.ok () ↔ store1 0 = true) := by
  constructor
  · unfold connect_to_database
    rw [h]
  · cases hs : store1 0 <;> simp [connect_to_database, hs]

/-- Witness for `connect_single_attempt` at two concrete stores agreeing
on the first attempt. -/
theorem connect_single_attempt_witness :
    connect_to_database (fun _ => true) =
      connect_to_database (fun n => decide (n = 0)) ∧
    (connect_to_database (fun _ => true) = Except.ok () ↔
      (fun _ : ℕ => true) 0 = true) :=
  connect_single_attempt (fun _ => true) (fun n => decide (n = 0)) (by decide)

/-- Claim C2: loading the one-row batch of `goodItem` twice into a
freshly created table leaves two rows, not one — the table's only unique
constraint is the serial primary key, which never conflicts, so
`ON CONFLICT DO NOTHING` never suppresses a full-tuple duplicate and
re-ingestion is not idempotent. -/
theorem double_load_duplicates :
    rowCount (execute_values (execute_values emptyTable (process_file [goodItem]))
        (process_file [goodItem])) = 2 ∧
    rowCount (execute_values emptyTable (process_file [goodItem])) = 1 :=
  ⟨rfl, rfl⟩

/-- Claim C3: at a transaction boundary, a failing entry (JSON parse
error, or a load/commit error) is logged, rolled back and stepped over:
the walk over any entry list with the failing entry inserted is the walk
without it, so a malformed entry never prevents subsequent valid entries
of the same archive from being committed, and no entry-level error
aborts the run. -/
theorem entry_failure_isolation (db : DBState) (e : EntryOutcome)
    (pre post : List EntryOutcome) (hinv : db.pending = db.committed)
    (hf : isEntryFailure e = true) :
    run_entries db (pre ++ e :: post) = run_entries db (pre ++ post) := by
  revert hinv
  induction pre generalizing db with
  | nil =>
      intro hinv
      simp only [List.nil_append, run_entries, List.foldl_cons]
      rw [process_entry_fail db e hinv hf]
  | cons p pre ih =>
      intro hinv
      simp only [List.cons_append, run_entries, List.foldl_cons]
      exact ih (process_entry db p) (process_entry_boundary db p)

/-- Witness for `entry_failure_isolation`: a malformed entry between two
valid entries of one archive, starting from a fresh session. -/
theorem entry_failure_isolation_witness :
    run_entries db0
        [EntryOutcome.ok [goodItem], EntryOutcome.parseError,
         EntryOutcome.ok [goodItem]] =
      run_entries db0 [EntryOutcome.ok [goodItem], EntryOutcome.ok [goodItem]] :=
  entry_failure_isolation db0 EntryOutcome.parseError
    [EntryOutcome.ok [goodItem]] [EntryOutcome.ok [goodItem]] rfl rfl

/-- Claim C4: a record whose line identifier is absent, not a string, or
not an exact member of the allow-list is silently skipped (`Except.ok
none`, no error and no log); every row of a batch carries an allow-listed
line; and every row persisted by the bulk insert either predates it or
carries an allow-listed line. -/
theorem invalid_line_never_persisted :
    (∀ item : RawItem,
        (∀ s, getField item "linha" = some (JsonValue.str s) → s ∉ VALID_LINES) →
        process_item item = Except.ok none) ∧
    (∀ (items : List RawItem) (r : Row), r ∈ process_file items →
        r.linha ∈ VALID_LINES) ∧
    (∀ (t : Table) (items : List RawItem) (tr : TableRow),
        tr ∈ (execute_values t (process_file items)).rows →
        tr ∈ t.rows ∨ tr.linha ∈ VALID_LINES) := by
  have hbatch : ∀ (items : List RawItem) (r : Row), r ∈ process_file items →
      r.linha ∈ VALID_LINES := by
    intro items r h
    obtain ⟨item, _, hpi⟩ := mem_process_file h
    exact lineStrOf_mem (process_item_ok_shape item r hpi).1
  refine ⟨?_, hbatch, ?_⟩
  · intro item hno
    have hl : lineStrOf item = none := by
      unfold lineStrOf
      split
      next s hs => rw [if_neg (hno s hs)]
      next => rfl
    unfold process_item
    rw [hl]
  · intro t items tr h
    rcases mem_execute_values h with h | ⟨i, r, hr, rfl⟩
    · exact Or.inl h
    · exact Or.inr (hbatch items r hr)

/-- Witness for `invalid_line_never_persisted`: the record with line
`999` is silently skipped, and the row of `goodItem` in the batch and in
the freshly loaded table carries its allow-listed line `483`. -/
theorem invalid_line_never_persisted_witness :
    process_item itemBadLine = Except.ok none ∧
    goodRow.linha ∈ VALID_LINES ∧
    (mkTableRow 1 goodRow ∈ emptyTable.rows ∨
      (mkTableRow 1 goodRow).linha ∈ VALID_LINES) := by
  refine ⟨?_, ?_, ?_⟩
  · refine invalid_line_never_persisted.1 itemBadLine ?_
    intro s hs
    rw [show getField itemBadLine "linha" = some (JsonValue.str "999") from rfl] at hs
    injection hs with hs
    injection hs with hs
    subst hs
    decide
  · exact invalid_line_never_persisted.2.1 [goodItem] goodRow (by decide)
  · exact invalid_line_never_persisted.2.2 emptyTable [goodItem] (mkTableRow 1 goodRow)
      (by decide)

/-- The separator substitution is the identity on comma-free strings. -/
theorem commaToDot_eq_self {s : String} (h : ∀ c ∈ s.data, c ≠ ',') :
    commaToDot s = s := by
  unfold commaToDot
  cases s with
  | mk data =>
      congr 1
      calc List.map (fun c => if c = ',' then '.' else c) data
          = List.map id data :=
            List.map_congr_left (fun c hc => by simp [h c hc])
        _ = data := List.map_id data

/-- Claim C5: the comma-decimal string `"-23,55052"` normalizes to the
value -23.55052; a comma-free string the float parser accepts (in
particular a period decimal) is accepted unchanged; and a coordinate
string with neither representation is rejected with a logged reason
while the entry continues past the dropped record. -/
theorem coordinate_normalization :
    normalizeCoord "-23,55052" = some ((-23.55052 : ℚ)) ∧
    (∀ (s : String) (v : ℚ), (∀ c ∈ s.data, c ≠ ',') →
        floatOfStr s = some v → normalizeCoord s = some v) ∧
    (∃ m, process_item itemBadLat = Except.error m) ∧
    process_file [itemBadLat, goodItem] = [goodRow] := by
  refine ⟨?_, ?_, ⟨_, rfl⟩, rfl⟩
  · rw [show normalizeCoord "-23,55052" = some (mkRat (-2355052) 100000) from rfl]
    congr 1
    norm_num [Rat.mkRat_eq_div]
  · intro s v hnc hf
    unfold normalizeCoord
    rw [commaToDot_eq_self hnc]
    exact hf

/-- Witness for `coordinate_normalization` at the comma-free period
decimal `"12.5"`. -/
theorem coordinate_normalization_witness :
    normalizeCoord "12.5" = some (mkRat 125 10) :=
  coordinate_normalization.2.1 "12.5" (mkRat 125 10) (by decide) rfl

/-- Claim C6, counterexample: `"2023-03-15_10.json"` matches the spec's
generic `YYYY-MM-DD_HH.json` pattern with hour 10 in the 06-23 window,
yet the walker skips it — the source regex fixes the year to 2024. -/
theorem year_pattern_counterexample :
    specPatternMatch "2023-03-15_10.json" = true ∧
    shouldProcessEntry "2023-03-15_10.json" = false := by
  constructor <;> decide

/-- Claim C6 (amended): an inner entry is processed exactly when its
base name matches `2024-MM-DD_HH.json` (year fixed to 2024) with HH in
the 06-23 window: membership in the processed list is membership in the
archive listing plus a pattern match on the base name; a two-digit hour
passes the pattern's hour alternation exactly when its value lies in
[6, 23]; `2024-03-15_05.json` is rejected, `2024-03-15_23.json` is
accepted, `notes.txt` is always rejected. -/
theorem filename_filter :
    (∀ (names : List String) (f : String),
        f ∈ processedEntries names ↔ f ∈ names ∧ shouldProcessEntry f = true) ∧
    (∀ a, a < 10 → ∀ b, b < 10 →
        (hourOk (Char.ofNat (48 + a)) (Char.ofNat (48 + b)) = true ↔
          6 ≤ 10 * a + b ∧ 10 * a + b ≤ 23)) ∧
    shouldProcessEntry "2024-03-15_05.json" = false ∧
    shouldProcessEntry "2024-03-15_23.json" = true ∧
    shouldProcessEntry "notes.txt" = false := by
  refine ⟨?_, by decide, by decide, by decide, by decide⟩
  intro names f
  simp [processedEntries, List.mem_filter]

/-- Witness for `filename_filter`: the hour characterization at the
digits of hour 10, and the processed list of a two-entry archive. -/
theorem filename_filter_witness :
    (hourOk (Char.ofNat (48 + 1)) (Char.ofNat (48 + 0)) = true ↔
      6 ≤ 10 * 1 + 0 ∧ 10 * 1 + 0 ≤ 23) ∧
    ("2024-03-15_23.json" ∈ processedEntries ["2024-03-15_23.json", "notes.txt"] ↔
      "2024-03-15_23.json" ∈ ["2024-03-15_23.json", "notes.txt"] ∧
        shouldProcessEntry "2024-03-15_23.json" = true) :=
  ⟨filename_filter.2.1 1 (by decide) 0 (by decide),
   filename_filter.1 ["2024-03-15_23.json", "notes.txt"] "2024-03-15_23.json"⟩

/-- Claim C7, counterexample: with the store reachable and the data
directory missing — one of the claim's two fatal conditions — the run
prints its diagnostic, returns from `run_etl` and the process exits with
status zero, not non-zero. -/
theorem exit_status_counterexample :
    envDirMissing.dirExists = false ∧
    (run_etl envDirMissing).exitCode = 0 :=
  ⟨rfl, rfl⟩

/-- Claim C7 (amended): the exit status is non-zero exactly when the
single store-connection attempt fails, or the directory exists and an
archive-level error (a corrupt zip archive) escapes the walker; a
missing data directory exits zero after its diagnostic, and a completed
walk exits zero even if entries were skipped or rolled back. -/
theorem exit_status (env : Env) :
    ((run_etl env).exitCode ≠ 0 ↔
      env.store 0 = false ∨
        (env.dirExists = true ∧ walkOk env.archives = false)) ∧
    (walkOk env.archives = false ↔ ∃ a ∈ env.archives, archiveFatal a = true) := by
  obtain ⟨st, dir, as⟩ := env
  constructor
  · cases hst : st 0 <;> cases dir <;> cases hw : walkOk as <;>
      simp [run_etl, connect_to_database, hst, hw]
  · simp [walkOk, List.all_eq_false]

/-- Claim C8, counterexample: the record `itemBadVel` carries a speed
value that is not coercible to the INTEGER column, yet `process_item`
does not reject it — the raw string flows into the batch row, so a
non-coercible field does not cause a record-level rejection. -/
theorem no_coercion_check_counterexample :
    specCoercibleToInt (JsonValue.str "notanumber") = false ∧
    process_item itemBadVel = Except.ok (some rowBadVel) ∧
    process_file [itemBadVel] = [rowBadVel] :=
  ⟨by decide, rfl, rfl⟩

/-- Claim C8 (amended): for a record past the line and coordinate
checks, the five remaining fields need only be present: a normalized row
has all of them, read verbatim from the record with no type coercion;
a record missing one of them is rejected with a logged reason; and the
entry continues past such a rejection. -/
theorem required_fields_presence :
    (∀ (item : RawItem) (r : Row), process_item item = Except.ok (some r) →
        (∀ k ∈ requiredKeys, ∃ v, getField item k = some v) ∧
        getField item "ordem" = some r.ordem ∧
        getField item "velocidade" = some r.velocidade) ∧
    (∀ item : RawItem, lineStrOf item ≠ none →
        (∃ k ∈ requiredKeys, getField item k = none) →
        ∃ m, process_item item = Except.error m) ∧
    process_file [itemMissingOrdem, goodItem] = [goodRow] := by
  have hpresent : ∀ (item : RawItem) (r : Row),
      process_item item = Except.ok (some r) →
      ∀ k ∈ requiredKeys, ∃ v, getField item k = some v := by
    intro item r h k hk
    have hs := process_item_ok_shape item r h
    simp only [requiredKeys, List.mem_cons, List.not_mem_nil, or_false] at hk
    rcases hk with rfl | rfl | rfl | rfl | rfl
    · exact ⟨r.ordem, hs.2.2.2.1⟩
    · exact ⟨r.datahora, hs.2.2.2.2.1⟩
    · exact ⟨r.datahoraenvio, hs.2.2.2.2.2.1⟩
    · exact ⟨r.datahoraservidor, hs.2.2.2.2.2.2.1⟩
    · exact ⟨r.velocidade, hs.2.2.2.2.2.2.2⟩
  refine ⟨?_, ?_, rfl⟩
  · intro item r h
    have hs := process_item_ok_shape item r h
    exact ⟨hpresent item r h, hs.2.2.2.1, hs.2.2.2.2.2.2.2⟩
  · intro item h1 hex
    obtain ⟨k, hk, hnone⟩ := hex
    rcases hpi : process_item item with m | o
    · exact ⟨m, rfl⟩
    · rcases o with _ | r
      · exact absurd (process_item_ok_none item hpi) h1
      · exfalso
        obtain ⟨v, hv⟩ := hpresent item r hpi k hk
        rw [hv] at hnone
        exact Option.noConfusion hnone

/-- Witness for `required_fields_presence`: the fields of `goodItem` are
all present and flow verbatim into `goodRow`, and the record missing
`ordem` is rejected with an error. -/
theorem required_fields_presence_witness :
    ((∀ k ∈ requiredKeys, ∃ v, getField goodItem k = some v) ∧
      getField goodItem "ordem" = some goodRow.ordem ∧
      getField goodItem "velocidade" = some goodRow.velocidade) ∧
    (∃ m, process_item itemMissingOrdem = Except.error m) :=
  ⟨required_fields_presence.1 goodItem goodRow rfl,
   required_fields_presence.2.1 itemMissingOrdem (by decide)
     ⟨"ordem", by decide, by decide⟩⟩

/-- Claim C9: every batch row carries as geometry arguments the very
longitude/latitude scalars of the row, and every row the bulk insert
adds to a table has geometry `ST_SetSRID(ST_MakePoint(longitude,
latitude), 4326)` built from its own scalar columns — longitude first,
SRID 4326. -/
theorem geometry_matches_scalars :
    (∀ (items : List RawItem) (r : Row), r ∈ process_file items →
        r.geomLon = r.longitude ∧ r.geomLat = r.latitude) ∧
    (∀ (t : Table) (items : List RawItem) (tr : TableRow),
        tr ∈ (execute_values t (process_file items)).rows →
        tr ∈ t.rows ∨
          tr.geom = setSRID (makePoint tr.longitude tr.latitude) 4326) := by
  have hbatch : ∀ (items : List RawItem) (r : Row), r ∈ process_file items →
      r.geomLon = r.longitude ∧ r.geomLat = r.latitude := by
    intro items r h
    obtain ⟨item, _, hpi⟩ := mem_process_file h
    have hs := process_item_ok_shape item r hpi
    exact ⟨hs.2.1, hs.2.2.1⟩
  refine ⟨hbatch, ?_⟩
  intro t items tr h
  rcases mem_execute_values h with h | ⟨i, r, hr, rfl⟩
  · exact Or.inl h
  · right
    obtain ⟨h1, h2⟩ := hbatch items r hr
    show setSRID (makePoint r.geomLon r.geomLat) 4326 =
      setSRID (makePoint r.longitude r.latitude) 4326
    rw [h1, h2]

/-- Witness for `geometry_matches_scalars` at the batch and table built
from `goodItem`. -/
theorem geometry_matches_scalars_witness :
    (goodRow.geomLon = goodRow.longitude ∧ goodRow.geomLat = goodRow.latitude) ∧
    (mkTableRow 1 goodRow ∈ emptyTable.rows ∨
      (mkTableRow 1 goodRow).geom =
        setSRID (makePoint (mkTableRow 1 goodRow).longitude
          (mkTableRow 1 goodRow).latitude) 4326) :=
  ⟨geometry_matches_scalars.1 [goodItem] goodRow (by decide),
   geometry_matches_scalars.2 emptyTable [goodItem] (mkTableRow 1 goodRow)
     (by decide)⟩

/-- Claim C10, counterexample: with a corrupt zip archive the exception
escapes the walker and the opened session is never closed by the
program; the missing-directory early return likewise skips the close
calls. -/
theorem close_not_unconditional_counterexample :
    (run_etl envCorruptZip).sessionOpened = true ∧
    (run_etl envCorruptZip).sessionClosed = false ∧
    (run_etl envDirMissing).sessionOpened = true ∧
    (run_etl envDirMissing).sessionClosed = false :=
  ⟨rfl, rfl, rfl, rfl⟩

/-- Claim C10 (amended): the program closes the database session exactly
when the connection succeeded, the data directory exists and the walk
completes without an escaping exception; the `close()` calls sit on the
normal path only, so an early return or an escaping error leaves the
session to be released only by process termination. -/
theorem close_only_on_clean_walk (env : Env) :
    (run_etl env).sessionClosed = true ↔
      env.store 0 = true ∧ env.dirExists = true ∧ walkOk env.archives = true := by
  obtain ⟨st, dir, as⟩ := env
  cases hst : st 0 <;> cases dir <;> cases hw : walkOk as <;>
    simp [run_etl, connect_to_database, hst, hw]

end Etl

